import Mathlib

/-!
Shallow embedding of `opentreemap/treemap/views/map_feature.py` (OTM2 view
layer) together with its `views/__init__.py` wiring, for checking the
natural-language specification against the code.

Conventions of the embedding:

* Python exceptions become `Except Exc`; Django's `ValidationError` carries
  either a message dictionary or a plain message list (`VErr`).
* ORM objects (`MapFeature`, `Tree`, `MapFeaturePhoto`) become explicit
  records; external collaborators (the ORM save, Django field metadata,
  unit conversions, the GIS transform, `md5`) are represented by explicit
  state fields, environment parameters, or bookkeeping constructors, never
  by fabricated computation.
* `transaction.commit_on_success` becomes an explicit wrapper that returns
  the caller's database state unchanged whenever the body raises.

All string helpers are re-implemented structurally (over `List Char`) so
that every definition evaluates inside the kernel.
-/

set_option autoImplicit false

/-- Drops characters of `p` while they match `s`; `True` when `p` is a prefix
of `s`.  Structural replacement for `String.startsWith` (Python
`str.startswith`). -/
def strStartsWith (s p : String) : Bool :=
  p.data.isPrefixOf s.data

/-- Structural replacement for `String.endsWith` (Python `str.endswith`). -/
def strEndsWith (s p : String) : Bool :=
  p.data.reverse.isPrefixOf s.data.reverse

/-- Structural replacement for `String.drop` (Python slicing `s[n:]`). -/
def strDrop (s : String) (n : Nat) : String :=
  String.mk (s.data.drop n)

/-- Helper for `pySplit1`: walks the characters, splitting at the first dot. -/
def splitDotAux : List Char → List Char → List String
  | [], acc => [String.mk acc.reverse]
  | c :: cs, acc =>
    if c = '.' then [String.mk acc.reverse, String.mk cs]
    else splitDotAux cs (c :: acc)

/-- Python `identifier.split('.', 1)`: a one-element list when there is no
dot, otherwise the part before the first dot and the untouched remainder. -/
def pySplit1 (s : String) : List String :=
  splitDotAux s.data []

/-- Decimal digits of a natural number, fuel-driven so the kernel reduces it. -/
def natReprAux : Nat → Nat → List Char → List Char
  | 0, _, acc => acc
  | fuel + 1, n, acc =>
    let d := Char.ofNat (48 + n % 10)
    if n < 10 then d :: acc else natReprAux fuel (n / 10) (d :: acc)

/-- Decimal rendering of a natural number (Python `str(n)`). -/
def natRepr (n : Nat) : String :=
  String.mk (natReprAux (n + 1) n [])

/-- Python `unicode(pk)` for a primary key that may be `None`. -/
def pyUnicode : Option Nat → String
  | some n => natRepr n
  | none => "None"

/-- Python `'; '.join`-style joining (the separator is passed explicitly). -/
def joinWith (sep : String) : List String → String
  | [] => ""
  | [x] => x
  | x :: xs => x ++ sep ++ joinWith sep xs

/-- Python `int(s)` restricted to optionally-signed decimal strings; this is
the only shape `rotate_map_feature_photo` ever feeds it. -/
def natOfDigits : List Char → Nat → Nat
  | [], acc => acc
  | c :: cs, acc => natOfDigits cs (acc * 10 + (c.toNat - 48))

/-- Python `int` on an optionally-negated digit string. -/
def pyInt (s : String) : Int :=
  match s.data with
  | '-' :: ds => -(natOfDigits ds 0 : Int)
  | ds => (natOfDigits ds 0 : Int)

/-- JSON-ish values flowing through the update pipeline, plus the objects the
view substitutes for raw request values.  `point` and `multiPolygonOfPolygon`
record GEOS `Point(x, y, srid=srid)` / `MultiPolygon(Polygon(ring, srid))`
construction; `transformedTo` records the target srid of a GEOS `transform`
call (the coordinate transform itself is an excluded external library). -/
inductive Val where
  | null
  | str (s : String)
  | num (n : Int)
  | obj (entries : List (String × Val))
  | point (x y srid : Val) (transformedTo : Option Nat)
  | multiPolygonOfPolygon (polygon srid : Val) (transformedTo : Option Nat)
  | featureRef (pk : Option Nat)

/-- GEOS `geom.transform(target)`: bookkeeping only, the actual coordinate
math is the excluded external GIS library. -/
def Val.transform : Val → Nat → Val
  | .point x y srid _, target => .point x y srid (some target)
  | .multiPolygonOfPolygon p srid _, target => .multiPolygonOfPolygon p srid (some target)
  | v, _ => v

/-- Python truthiness for the value shapes that reach `update_map_feature`. -/
def Val.truthy : Val → Bool
  | .null => false
  | .str s => !s.isEmpty
  | .num n => n != 0
  | .obj es => !es.isEmpty
  | _ => true

/-- Structural equality on values, standing in for Python `==` at the three
comparison sites of `set_attr_on_model` / `update_map_feature`. -/
def Val.beq : Val → Val → Bool
  | .null, .null => true
  | .str a, .str b => a == b
  | .num a, .num b => a == b
  | .obj es, .obj fs => go es fs
  | .point a b c t, .point a' b' c' t' =>
    Val.beq a a' && Val.beq b b' && Val.beq c c' && t == t'
  | .multiPolygonOfPolygon p s t, .multiPolygonOfPolygon p' s' t' =>
    Val.beq p p' && Val.beq s s' && t == t'
  | .featureRef p, .featureRef p' => p == p'
  | _, _ => false
where
  /-- Entry-wise equality of two dictionaries. -/
  go : List (String × Val) → List (String × Val) → Bool
  | [], [] => true
  | (k, v) :: r, (k', v') :: r' => k == k' && Val.beq v v' && go r r'
  | _, _ => false

/-- Django's `ValidationError` payload: built either from a field dictionary
(then `message_dict` is available) or from plain messages. -/
inductive VErr where
  | fromDict (d : List (String × List String))
  | fromMessages (msgs : List String)

/-- Django `ValidationError.messages`: dictionary values flattened, or the
plain message list. -/
def VErr.messages : VErr → List String
  | .fromDict d => d.foldl (fun acc p => acc ++ p.2) []
  | .fromMessages m => m

/-- The Python exceptions this module can raise. -/
inductive Exc where
  | validationError (v : VErr)
  | genericExc (msg : String)
  | keyError (msg : String)
  | typeError (msg : String)
  | http404 (msg : String)
  | nameError (msg : String)

/-- Instance row (`treemap.models.Instance`): only the data this module
touches. `enabledFeatures` backs the external `feature_enabled` check. -/
structure Instance where
  pk : Nat
  mapFeatureTypes : List String
  geoRevHash : String
  enabledFeatures : List String

/-- A map feature, tree, or other model instance as this module sees it.
External model-layer behaviour is captured by data:

* `fieldClasses` backs `_meta.get_field_by_name(attr)[0].__class__.__name__`;
* `editableFields` backs `model.fields()`;
* `udfNames` backs `get_user_defined_fields()` names;
* `fieldsUpdated` abstracts `fields_were_updated()`: it is set whenever
  `apply_change` or a UDF assignment applied a tracked change;
* `saveErrors` is the per-field dictionary of the `ValidationError` that
  `save_with_user` would raise for this object (empty means the save
  succeeds);
* `displayUnits` records which unit system a `Convertible` object currently
  holds (the numeric conversion itself is the external `treemap.units`);
* `hash` backs the external `MapFeature.hash` content-hash property. -/
structure Model where
  modelName : String
  featureType : String
  pk : Option Nat
  mapfeaturePtrId : Val
  isConvertible : Bool
  displayUnits : Bool
  fieldClasses : List (String × String)
  editableFields : List String
  udfNames : List String
  udfs : List (String × Val)
  attrs : List (String × Val)
  fieldsUpdated : Bool
  saveErrors : List (String × List String)
  plot : Option Val
  inst : Instance
  hash : String

/-- OTM2 `MapFeature.is_plot`: the feature type is the plot type. -/
def Model.is_plot (m : Model) : Bool :=
  m.featureType == "Plot"

/-- Convertible `convert_to_display_units` (external `treemap.units`):
modelled as switching the object to display units. -/
def Model.convert_to_display_units (m : Model) : Model :=
  { m with displayUnits := true }

/-- Convertible `convert_to_database_units` (external `treemap.units`). -/
def Model.convert_to_database_units (m : Model) : Model :=
  { m with displayUnits := false }

/-- Modelled from the spec: `to_object_name` lives in `treemap/util.py`,
which is not among the analysed sources.  The spec's field mapper translates
`"model.field"` keys whose model part is the lower-cased object name of a
map-feature type, so the helper lower-cases the leading character. -/
def to_object_name (s : String) : String :=
  match s.data with
  | [] => ""
  | c :: cs => String.mk (c.toLower :: cs)

/-- Modelled from the spec: `package_validation_errors` lives in
`treemap/util.py`, not among the analysed sources.  Per the spec it reports
"structured per-field errors" keyed "by model and field": every field key of
the model's validation-error dictionary is prefixed with the model's object
name. -/
def package_validation_errors (modelName : String)
    (errs : List (String × List String)) : List (String × List String) :=
  errs.map (fun p => (modelName ++ "." ++ p.1, p.2))

/-- Python `d[k] = v` on an association list: replaces in place or appends. -/
def assocSet {α : Type} (l : List (String × α)) (k : String) (v : α) :
    List (String × α) :=
  match l with
  | [] => [(k, v)]
  | (k', v') :: rest =>
    if k' == k then (k, v) :: rest else (k', v') :: assocSet rest k v

/-- Python `d.update(upd)` on an association list, entry by entry. -/
def dictUpdate (d upd : List (String × List String)) :
    List (String × List String) :=
  match upd with
  | [] => d
  | (k, v) :: rest => dictUpdate (assocSet d k v) rest

/-- Django `_meta.get_field_by_name(attr)[0].__class__.__name__`, abstracted
as a per-model table; names the table does not list (for example the
model-layer-resolved `udf:` pseudo fields) map to a class name that is
neither a point nor a multi-polygon field. -/
def getFieldClassName (m : Model) (attr : String) : String :=
  match m.fieldClasses.find? (fun p => p.1 == attr) with
  | some p => p.2
  | none => ""

/-- Python `val.get(k, dflt)`: defaulting lookup, a `TypeError`-style failure
on non-dictionaries (they have no `get`). -/
def dictGet (v : Val) (k : String) (dflt : Val) : Except Exc Val :=
  match v with
  | .obj es =>
    match es.find? (fun p => p.1 == k) with
    | some p => Except.ok p.2
    | none => Except.ok dflt
  | _ => Except.error (Exc.typeError "get")

/-- Python `val[k]`: `KeyError` when missing, type failure on
non-dictionaries. -/
def getItem (v : Val) (k : String) : Except Exc Val :=
  match v with
  | .obj es =>
    match es.find? (fun p => p.1 == k) with
    | some p => Except.ok p.2
    | none => Except.error (Exc.keyError k)
  | _ => Except.error (Exc.typeError "subscript")

/-- The geometry block at the head of `set_attr_on_model`: point fields get
`Point(val['x'], val['y'], srid=val.get('srid', 3857))` transformed to 3857;
multi-polygon fields get
`MultiPolygon(Polygon(val['polygon'], srid=val.get('srid', 4326)))`
transformed to 3857; every other field class leaves the value untouched. -/
def coerceGeomVal (field_classname : String) (val : Val) : Except Exc Val :=
  if strEndsWith field_classname "PointField" then
    match dictGet val "srid" (Val.num 3857) with
    | Except.error e => Except.error e
    | Except.ok srid =>
      match getItem val "x" with
      | Except.error e => Except.error e
      | Except.ok x =>
        match getItem val "y" with
        | Except.error e => Except.error e
        | Except.ok y => Except.ok (Val.transform (Val.point x y srid none) 3857)
  else if strEndsWith field_classname "MultiPolygonField" then
    match dictGet val "srid" (Val.num 4326) with
    | Except.error e => Except.error e
    | Except.ok srid =>
      match getItem val "polygon" with
      | Except.error e => Except.error e
      | Except.ok polygon =>
        Except.ok (Val.transform (Val.multiPolygonOfPolygon polygon srid none) 3857)
  else
    Except.ok val

/-- The primary key of a model as a Python comparison value. -/
def pkVal (m : Model) : Val :=
  match m.pk with
  | some n => Val.num n
  | none => Val.null

/-- External `apply_change(attr, val)`: records the assignment and marks the
model as having tracked updates. -/
def apply_change (m : Model) (attr : String) (v : Val) : Model :=
  { m with attrs := assocSet m.attrs attr v, fieldsUpdated := true }

/-- `set_attr_on_model(model, attr, val)` from `update_map_feature`.  The
second value argument is the enclosing loop's `value` variable, which the
closure reads in the `mapfeature_ptr` branch; at every call site the caller
passes the same value for both. -/
def set_attr_on_model (model : Model) (attr : String) (valIn value : Val) :
    Except Exc Model :=
  match coerceGeomVal (getFieldClassName model attr) valIn with
  | Except.error e => Except.error e
  | Except.ok val =>
    if attr == "mapfeature_ptr" then
      if !(Val.beq model.mapfeaturePtrId value) then
        Except.error (Exc.genericExc "You may not change the mapfeature_ptr_id")
      else Except.ok model
    else if attr == "id" then
      if !(Val.beq val (pkVal model)) then
        Except.error (Exc.genericExc "Can\x27t update id attribute")
      else Except.ok model
    else if strStartsWith attr "udf:" then
      let udf_name := strDrop attr 4
      if model.udfNames.contains udf_name then
        Except.ok { model with
          udfs := assocSet model.udfs udf_name val, fieldsUpdated := true }
      else
        Except.error (Exc.keyError ("Invalid UDF " ++ attr))
    else if model.editableFields.contains attr then
      Except.ok (apply_change model attr val)
    else
      Except.error (Exc.genericExc ("Malformed request - invalid field " ++ attr))

/-- User as seen through `request.user`: only the primary key matters here.
An attached anonymous user has `pk = none`. -/
structure User where
  pk : Option Nat

/-- The HTTP request surface this module reads: the acting user (`none` for a
falsy `request.user`), the JSON body already parsed by the external
`json.loads`, and the combined GET/POST parameter dictionary (`REQUEST`). -/
structure Request where
  user : Option User
  bodyItems : List (String × Val)
  params : List (String × String)

/-- Persistent state the orchestrator touches: the instance row that
`Instance.objects.get` reloads, a fresh-primary-key counter, and an append
log of every successful `save_with_user`. -/
structure DB where
  instanceRow : Instance
  nextPk : Nat
  savedLog : List Model

/-- External collaborators of one `update_map_feature` call:
`feature.current_tree()`, the fresh `Tree(instance=feature.instance)`, and
the scoped `get_object_or_404(Species, instance=..., pk=value)` lookup. -/
structure Env where
  currentTree : Option Model
  newTree : Model
  speciesLookup : Val → Option Val

/-- External ORM `save_with_user`: raises the model's validation-error
dictionary when it is non-empty, otherwise persists the model (assigning a
fresh primary key on insert) and logs it. -/
def save_with_user (db : DB) (m : Model) :
    Except (List (String × List String)) (Model × DB) :=
  if m.saveErrors.isEmpty then
    match m.pk with
    | some _ => Except.ok (m, { db with savedLog := db.savedLog ++ [m] })
    | none =>
      let m' := { m with pk := some db.nextPk }
      Except.ok (m', { db with nextPk := db.nextPk + 1,
                               savedLog := db.savedLog ++ [m'] })
  else Except.error m.saveErrors

/-- `save_and_return_errors(thing, user)`: convert a `Convertible` back to
database units, save, and return `{}` on success or the packaged per-field
errors of the `ValidationError` the save raised. -/
def save_and_return_errors (db : DB) (thing : Model) :
    List (String × List String) × Model × DB :=
  let thing := if thing.isConvertible then thing.convert_to_database_units else thing
  match save_with_user db thing with
  | Except.ok (thing', db') => ([], thing', db')
  | Except.error e => (package_validation_errors thing.modelName e, thing, db)

/-- `split_model_or_raise(identifier)`: split on the first dot; anything that
is not exactly `model.field` with a recognised model part raises. -/
def split_model_or_raise (featureObjectNames : List String) (identifier : String) :
    Except Exc (String × String) :=
  match pySplit1 identifier with
  | [m, f] =>
    if (featureObjectNames ++ ["tree"]).contains m then Except.ok (m, f)
    else Except.error (Exc.genericExc ("Malformed request - invalid field " ++ identifier))
  | _ => Except.error (Exc.genericExc ("Malformed request - invalid field " ++ identifier))

/-- Whether a request key has the shape `split_model_or_raise` accepts:
splitting on the first dot yields a model part and a field part and the
model part is a recognised object name or `tree`. -/
def keyWellFormed (featureObjectNames : List String) (identifier : String) : Bool :=
  match pySplit1 identifier with
  | [m, _] => (featureObjectNames ++ ["tree"]).contains m
  | _ => false

/-- One iteration of the `for (identifier, value) in request_dict` loop of
`update_map_feature`, threading the feature and the lazily-created tree. -/
def processEntry (env : Env) (featureObjectNames : List String)
    (st : Model × Option Model) (entry : String × Val) :
    Except Exc (Model × Option Model) :=
  match split_model_or_raise featureObjectNames entry.1 with
  | Except.error e => Except.error e
  | Except.ok (object_name, field) =>
    let feature := st.1
    let value := entry.2
    if featureObjectNames.contains object_name then
      match set_attr_on_model feature field value value with
      | Except.error e => Except.error e
      | Except.ok feature' => Except.ok (feature', st.2)
    else if object_name == "tree" && feature.featureType == "Plot" then
      let tree := ((st.2).orElse (fun _ => env.currentTree)).getD env.newTree
      let tree := tree.convert_to_display_units
      match (if field == "species" && value.truthy then
               match env.speciesLookup value with
               | some sp => Except.ok sp
               | none => Except.error (Exc.http404 "No Species matches the given query.")
             else if field == "plot" && Val.beq value (Val.str (pyUnicode feature.pk)) then
               Except.ok (Val.featureRef feature.pk)
             else Except.ok value) with
      | Except.error e => Except.error e
      | Except.ok value =>
        match set_attr_on_model tree field value value with
        | Except.error e => Except.error e
        | Except.ok tree' => Except.ok (feature, some tree')
    else
      Except.error (Exc.genericExc ("Malformed request - invalid model " ++ object_name))

/-- The whole request loop of `update_map_feature`. -/
def loopPhase (env : Env) (featureObjectNames : List String)
    (items : List (String × Val)) (st : Model × Option Model) :
    Except Exc (Model × Option Model) :=
  items.foldlM (processEntry env featureObjectNames) st

/-- The save section of `update_map_feature`: save the feature when its
fields were updated, then attach the feature to the tree and save it when
its fields were updated, merging the error dictionaries. -/
def savePhase (db : DB) (feature : Model) (treeOpt : Option Model) :
    List (String × List String) × Model × Option Model × DB :=
  let (errors, feature, db) :=
    if feature.fieldsUpdated then
      let (errs, f', db') := save_and_return_errors db feature
      (dictUpdate [] errs, f', db')
    else ([], feature, db)
  match treeOpt with
  | some tree =>
    if tree.fieldsUpdated then
      let tree := { tree with plot := some (Val.featureRef feature.pk) }
      let (errs, t', db') := save_and_return_errors db tree
      (dictUpdate errors errs, feature, some t', db')
    else (errors, feature, some tree, db)
  | none => (errors, feature, none, db)

/-- `feature.instance = Instance.objects.get(id=feature.instance.id)`. -/
def reload_instance (m : Model) (db : DB) : Model :=
  { m with inst := db.instanceRow }

/-- Body of `update_map_feature` before the transaction decorator: build the
object names, convert a Convertible feature to display units, run the loop,
run the saves, raise `ValidationError(errors)` when any save failed, and
reload the feature's instance on success. -/
def updateMapFeatureBody (env : Env) (db : DB)
    (request_dict : List (String × Val)) (feature : Model) :
    Except Exc ((Model × Option Model) × DB) :=
  let featureObjectNames := feature.inst.mapFeatureTypes.map to_object_name
  let feature := if feature.isConvertible then feature.convert_to_display_units else feature
  match loopPhase env featureObjectNames request_dict (feature, none) with
  | Except.error e => Except.error e
  | Except.ok (feature, treeOpt) =>
    let (errors, feature, treeOpt, db) := savePhase db feature treeOpt
    if errors.isEmpty then
      Except.ok ((reload_instance feature db, treeOpt), db)
    else
      Except.error (Exc.validationError (VErr.fromDict errors))

/-- `update_map_feature(request_dict, user, feature)` under
`@transaction.commit_on_success`: any exception rolls the transaction back,
so the caller's database state is returned unchanged on every error.  The
`user` argument is forwarded to the external saves, whose auditing is
outside this module. -/
def update_map_feature (env : Env) (db : DB)
    (request_dict : List (String × Val)) (_user : Option User) (feature : Model) :
    Except Exc (Model × Option Model) × DB :=
  match updateMapFeatureBody env db request_dict feature with
  | Except.ok (res, db') => (Except.ok res, db')
  | Except.error e => (Except.error e, db)

/-- A photo row (`MapFeaturePhoto`): `rotation` accumulates the external
`set_image(..., degrees_to_rotate=...)` calls and `saveErrors` the messages
of the `ValidationError` its `save_with_user` would raise. -/
structure Photo where
  pk : Nat
  featurePk : Nat
  rotation : Int
  saveErrors : List String

/-- Context values handed to templates or serialised to JSON.  `photoCtxs`
stands for `map(context_dict_for_photo, photos)` with the external
per-photo context builder left uninterpreted. -/
inductive CtxVal where
  | null
  | bool (b : Bool)
  | str (s : String)
  | num (n : Nat)
  | photoCtxs (ps : List Photo)

/-- State the photo handlers touch: the instance's features and photos. -/
structure PhotoState where
  features : List Model
  photos : List Photo

/-- What a view handler hands back: a context dictionary, an opaque context
from an external builder, a rendered template, or a bad-request JSON
response. -/
inductive Resp where
  | context (entries : List (String × CtxVal))
  | contextVal (c : CtxVal)
  | render (template : String) (c : CtxVal)
  | renderNone (template : String)
  | badRequestJson (d : List (String × List String))

/-- Modelled from the spec: `get_map_feature_or_404` lives in
`treemap/lib/map_feature.py`, not among the analysed sources; it returns the
feature with the given id scoped to the instance or raises `Http404`. -/
def get_map_feature_or_404 (features : List Model) (feature_id : Nat)
    (inst : Instance) : Except Exc Model :=
  match features.find? (fun f => f.pk == some feature_id && f.inst.pk == inst.pk) with
  | some f => Except.ok f
  | none => Except.error (Exc.http404 "MapFeature")

/-- Modelled from the spec: `instance.scope_model(MapFeature)` followed by
`get_object_or_404(InstanceMapFeature, pk=feature_id)` — the same scoped
lookup, raising `Http404` when no feature matches. -/
def scoped_get_or_404 (features : List Model) (inst : Instance)
    (feature_id : Nat) : Except Exc Model :=
  match features.find? (fun f => f.pk == some feature_id && f.inst.pk == inst.pk) with
  | some f => Except.ok f
  | none => Except.error (Exc.http404 "MapFeature")

/-- Modelled from the spec: external `Instance.feature_enabled` flag check. -/
def feature_enabled (i : Instance) (f : String) : Bool :=
  i.enabledFeatures.contains f

/-- A model's primary key as a context value (`None` before any save). -/
def ctxOfOptPk : Option Nat → CtxVal
  | some n => CtxVal.num n
  | none => CtxVal.null

/-- Django `ValidationError.message_dict`: only available when the error was
built from a dictionary; otherwise Django raises. -/
def VErr.message_dict : VErr → Except Exc (List (String × List String))
  | .fromDict d => Except.ok d
  | .fromMessages _ => Except.error (Exc.genericExc "AttributeError: message_dict")

/-- `_request_to_update_map_feature(request, instance, feature)`: parse the
body, run the orchestrator, reload the instance, and return the success
context; a `ValidationError` becomes `bad_request_json_response` built from
its `message_dict`; any other exception propagates. -/
def _request_to_update_map_feature (env : Env) (db : DB) (request : Request)
    (_inst : Instance) (feature : Model) : Except Exc Resp × DB :=
  match update_map_feature env db request.bodyItems request.user feature with
  | (Except.ok (feature, treeOpt), db') =>
    let inst' := db'.instanceRow
    (Except.ok (Resp.context [
      ("ok", CtxVal.bool true),
      ("geoRevHash", CtxVal.str inst'.geoRevHash),
      ("featureId", ctxOfOptPk feature.pk),
      ("treeId", match treeOpt with
        | some tree => ctxOfOptPk tree.pk
        | none => CtxVal.null),
      ("enabled", CtxVal.bool (feature_enabled inst' "add_plot"))]), db')
  | (Except.error (Exc.validationError ve), db') =>
    (match ve.message_dict with
     | Except.ok d => (Except.ok (Resp.badRequestJson d), db')
     | Except.error e => (Except.error e, db'))
  | (Except.error e, db') => (Except.error e, db')

/-- `map_feature_hash(request, instance, feature_id, ...)`: look the feature
up scoped to the instance and hash its content hash together with the acting
user's primary key.  `pk` is only assigned under `if request.user:`, so a
falsy user leaves it unbound and the final `str(pk)` raises a `NameError`.
`md5hex` is the external `hashlib.md5(...).hexdigest()`. -/
def map_feature_hash (md5hex : String → String) (features : List Model)
    (request : Request) (inst : Instance) (feature_id : Nat) :
    Except Exc String :=
  match scoped_get_or_404 features inst feature_id with
  | Except.error e => Except.error e
  | Except.ok base_feature =>
    match request.user with
    | some u =>
      let pk : String :=
        match u.pk with
        | some n => if n == 0 then "" else natRepr n
        | none => ""
      Except.ok (md5hex (base_feature.hash ++ ":" ++ pk))
    | none => Except.error (Exc.nameError "local variable pk referenced before assignment")

/-- The photos of a feature (`feature.photos()`). -/
def featurePhotos (st : PhotoState) (f : Model) : List Photo :=
  st.photos.filter (fun p => some p.featurePk == f.pk)

/-- The context dictionary `get_photo_context_and_errors` builds after the
wrapped handler ran: the feature's photos re-fetched from the post-handler
state, and the error slot. -/
def photoContext (st : PhotoState) (inst : Instance) (feature_id : Nat)
    (error : Option String) : Except Exc Resp × PhotoState :=
  match get_map_feature_or_404 st.features feature_id inst with
  | Except.error e => (Except.error e, st)
  | Except.ok feature =>
    (Except.ok (Resp.context [
      ("photos", CtxVal.photoCtxs (featurePhotos st feature)),
      ("error", match error with
        | none => CtxVal.null
        | some s => CtxVal.str s)]), st)

/-- `get_photo_context_and_errors(fn)`: run the handler, catch only
`ValidationError` (joining its messages with `'; '`), then re-fetch the
feature and respond with its photos and the error slot. -/
def get_photo_context_and_errors
    (fn : PhotoState → Except Exc Unit × PhotoState)
    (inst : Instance) (feature_id : Nat) (st : PhotoState) :
    Except Exc Resp × PhotoState :=
  match fn st with
  | (Except.ok _, st') => photoContext st' inst feature_id none
  | (Except.error (Exc.validationError v), st') =>
    photoContext st' inst feature_id (some (joinWith "; " v.messages))
  | (Except.error e, st') => (Except.error e, st')

/-- `rotate_map_feature_photo` before its decorator: reject any `degrees`
parameter outside the six literal strings, then rotate and save the photo. -/
def rotate_map_feature_photo (request : Request) (photo_id : Nat)
    (st : PhotoState) : Except Exc Unit × PhotoState :=
  let orientation := (request.params.find? (fun p => p.1 == "degrees")).map (fun p => p.2)
  let valid :=
    match orientation with
    | some s => ["90", "180", "270", "-90", "-180", "-270"].contains s
    | none => false
  if !valid then
    (Except.error (Exc.validationError (VErr.fromMessages
      ["\"degrees\" must be a multiple of 90°"])), st)
  else
    let degrees := pyInt (orientation.getD "")
    match st.photos.find? (fun p => p.pk == photo_id) with
    | none => (Except.error (Exc.http404 "MapFeaturePhoto"), st)
    | some photo =>
      if photo.saveErrors.isEmpty then
        let photo' := { photo with rotation := photo.rotation + degrees }
        (Except.ok (), { st with
          photos := st.photos.map (fun p => if p.pk == photo_id then photo' else p) })
      else
        (Except.error (Exc.validationError (VErr.fromMessages photo.saveErrors)), st)

/-- The decorated endpoint: `rotate_map_feature_photo` wrapped by
`get_photo_context_and_errors`. -/
def rotate_map_feature_photo_endpoint (request : Request) (inst : Instance)
    (feature_id photo_id : Nat) (st : PhotoState) :
    Except Exc Resp × PhotoState :=
  get_photo_context_and_errors (rotate_map_feature_photo request photo_id)
    inst feature_id st

/-- `map_feature_detail(request, instance, feature_id, render)`: plot
features render `treemap/plot_detail.html` over `context_dict_for_plot`,
everything else renders the interpolated `map_features/..._detail.html` over
`context_dict_for_resource`; without `render` the context itself comes
back.  The two context builders are external (`treemap.lib.map_feature`)
and passed as parameters. -/
def map_feature_detail (ctxPlot ctxResource : Request → Model → CtxVal)
    (features : List Model) (request : Request) (inst : Instance)
    (feature_id : Nat) (render : Bool) : Except Exc Resp :=
  match get_map_feature_or_404 features feature_id inst with
  | Except.error e => Except.error e
  | Except.ok feature =>
    let context := if feature.is_plot then ctxPlot request feature
                   else ctxResource request feature
    if render then
      let template := if feature.is_plot then "treemap/plot_detail.html"
                      else "map_features/" ++ feature.featureType ++ "_detail.html"
      Except.ok (Resp.render template context)
    else
      Except.ok (Resp.contextVal context)

/-- `render_map_feature_add(request, instance, type)`: the membership test
slices the instance's feature-type list from index 1, so only
`map_feature_types[1:]` get an add page; anything else, the first entry
included, raises `Http404`. -/
def render_map_feature_add (inst : Instance) (ftype : String) :
    Except Exc Resp :=
  if (inst.mapFeatureTypes.drop 1).contains ftype then
    Except.ok (Resp.renderNone ("map_features/" ++ ftype ++ "_add.html"))
  else
    Except.error (Exc.http404 ("Instance does not support feature type " ++ ftype))

/-- Python `pk = request.user.pk or ''` followed by `str(pk)`: a falsy
primary key (absent or zero) renders as the empty string. -/
def pyPkStr (u : User) : String :=
  match u.pk with
  | some n => if n == 0 then "" else natRepr n
  | none => ""

/-- Concrete instance used to exercise the theorems on closed inputs. -/
def inst0 : Instance :=
  { pk := 7, mapFeatureTypes := ["Plot"], geoRevHash := "georev1",
    enabledFeatures := ["add_plot"] }

/-- Concrete plot feature used to exercise the theorems on closed inputs:
one editable field whose save would fail validation. -/
def feature0 : Model :=
  { modelName := "plot", featureType := "Plot", pk := some 3,
    mapfeaturePtrId := Val.null, isConvertible := false, displayUnits := false,
    fieldClasses := [], editableFields := ["width"], udfNames := ["Stewardship"],
    udfs := [], attrs := [], fieldsUpdated := false,
    saveErrors := [("width", ["bad width"])], plot := none, inst := inst0,
    hash := "h0" }

/-- Environment with no current tree and a trivial species lookup. -/
def env0 : Env := ⟨none, feature0, fun _ => none⟩

/-- Concrete database state. -/
def db0 : DB := ⟨inst0, 10, []⟩

/-- A well-formed single-entry request body. -/
def items0 : List (String × Val) := [("plot.width", Val.num 5)]

/-- `feature0` after the loop applied the `plot.width` edit. -/
def f0Updated : Model :=
  { feature0 with attrs := [("width", Val.num 5)], fieldsUpdated := true }

/-- A request with a falsy user and an empty body. -/
def requestNoUser : Request := ⟨none, [], []⟩

/-- A request from a user with primary key 5. -/
def requestUser5 : Request := ⟨some ⟨some 5⟩, [], []⟩

/-- A request carrying `degrees=0`. -/
def requestDeg0 : Request := ⟨some ⟨some 5⟩, [], [("degrees", "0")]⟩

/-- A feature whose geometry fields exercise the coercion branches. -/
def geomFeature0 : Model :=
  { feature0 with fieldClasses := [("geom", "PointField"), ("area", "MultiPolygonField")],
                  editableFields := ["geom", "area", "width"] }

/-- A point-shaped request value without an explicit srid. -/
def pointVal0 : Val := Val.obj [("x", Val.num 10), ("y", Val.num 20)]

/-- Photo state: `feature0` with one attached photo. -/
def photoSt0 : PhotoState := ⟨[feature0], [⟨21, 3, 0, []⟩]⟩

/-- A photo handler that raises a two-message `ValidationError`. -/
def fnVE0 : PhotoState → Except Exc Unit × PhotoState :=
  fun st => (Except.error (Exc.validationError (VErr.fromMessages ["e1", "e2"])), st)

/-- A photo handler that succeeds without touching the state. -/
def fnOk0 : PhotoState → Except Exc Unit × PhotoState :=
  fun st => (Except.ok (), st)

/-- A non-plot feature (a resource) for the detail-template theorems. -/
def resourceFeature0 : Model :=
  { feature0 with pk := some 4, featureType := "RainBarrel", modelName := "rainBarrel" }

theorem udf_attr_not_reserved (attr : String) (h : strStartsWith attr "udf:" = true) :
    (attr == "mapfeature_ptr") = false ∧ (attr == "id") = false := by
  constructor
  · cases he : attr == "mapfeature_ptr"
    · rfl
    · exact absurd h (by rw [eq_of_beq he]; decide)
  · cases he : attr == "id"
    · rfl
    · exact absurd h (by rw [eq_of_beq he]; decide)

/-- C3: when the target attribute's model field class name ends with
`PointField`, the field mapper assigns a `Point` built from the value's `x`
and `y` entries with the value's srid (default 3857), transformed to 3857;
when it ends with `MultiPolygonField`, it assigns a `MultiPolygon` wrapping
one `Polygon` built from the value's `polygon` entry with the value's srid
(default 4326), transformed to 3857; every other field class gets the value
assigned unmodified. -/
theorem set_attr_on_model_geometry_coercion (m : Model) (attr : String)
    (v x y s p : Val)
    (heditable : m.editableFields.contains attr = true)
    (hptr : (attr == "mapfeature_ptr") = false)
    (hid : (attr == "id") = false)
    (hudf : strStartsWith attr "udf:" = false) :
    (strEndsWith (getFieldClassName m attr) "PointField" = true →
      dictGet v "srid" (Val.num 3857) = Except.ok s →
      getItem v "x" = Except.ok x → getItem v "y" = Except.ok y →
      set_attr_on_model m attr v v =
        Except.ok (apply_change m attr (Val.point x y s (some 3857))))
  ∧ (strEndsWith (getFieldClassName m attr) "PointField" = false →
      strEndsWith (getFieldClassName m attr) "MultiPolygonField" = true →
      dictGet v "srid" (Val.num 4326) = Except.ok s →
      getItem v "polygon" = Except.ok p →
      set_attr_on_model m attr v v =
        Except.ok (apply_change m attr (Val.multiPolygonOfPolygon p s (some 3857))))
  ∧ (strEndsWith (getFieldClassName m attr) "PointField" = false →
      strEndsWith (getFieldClassName m attr) "MultiPolygonField" = false →
      set_attr_on_model m attr v v = Except.ok (apply_change m attr v)) := by
  refine ⟨?_, ?_, ?_⟩
  · intro hpc hsrid hx hy
    simp [set_attr_on_model, coerceGeomVal, hpc, hsrid, hx, hy, hptr, hid,
          hudf, heditable, Val.transform]
    exact List.mem_of_elem_eq_true heditable
  · intro hpc hmc hsrid hp
    simp [set_attr_on_model, coerceGeomVal, hpc, hmc, hsrid, hp, hptr, hid,
          hudf, heditable, Val.transform]
    exact List.mem_of_elem_eq_true heditable
  · intro hpc hmc
    simp [set_attr_on_model, coerceGeomVal, hpc, hmc, hptr, hid, hudf, heditable]
    exact List.mem_of_elem_eq_true heditable

theorem set_attr_geometry_witness :
    (geomFeature0.editableFields.contains "geom" = true
      ∧ strEndsWith (getFieldClassName geomFeature0 "geom") "PointField" = true)
    ∧ set_attr_on_model geomFeature0 "geom" pointVal0 pointVal0 =
        Except.ok (apply_change geomFeature0 "geom"
          (Val.point (Val.num 10) (Val.num 20) (Val.num 3857) (some 3857))) :=
  ⟨⟨rfl, rfl⟩,
   (set_attr_on_model_geometry_coercion geomFeature0 "geom" pointVal0
      (Val.num 10) (Val.num 20) (Val.num 3857) Val.null
      rfl rfl rfl rfl).1 rfl rfl rfl rfl⟩

/-- C4: for an attribute name starting with `udf:`, the mapper strips the
prefix and assigns into the model's `udfs` under the stripped name exactly
when that name is among the model's user-defined fields; otherwise it raises
`KeyError` and assigns nothing. -/
theorem set_attr_on_model_udf (m : Model) (attr : String) (v : Val)
    (hudf : strStartsWith attr "udf:" = true)
    (hcp : strEndsWith (getFieldClassName m attr) "PointField" = false)
    (hcm : strEndsWith (getFieldClassName m attr) "MultiPolygonField" = false) :
    (m.udfNames.contains (strDrop attr 4) = true →
      set_attr_on_model m attr v v =
        Except.ok { m with udfs := assocSet m.udfs (strDrop attr 4) v,
                           fieldsUpdated := true })
  ∧ (m.udfNames.contains (strDrop attr 4) = false →
      set_attr_on_model m attr v v =
        Except.error (Exc.keyError ("Invalid UDF " ++ attr))) := by
  obtain ⟨hptr, hid⟩ := udf_attr_not_reserved attr hudf
  constructor
  · intro hin
    simp [set_attr_on_model, coerceGeomVal, hcp, hcm, hptr, hid, hudf, hin]
    exact List.mem_of_elem_eq_true hin
  · intro hout
    simp [set_attr_on_model, coerceGeomVal, hcp, hcm, hptr, hid, hudf, hout]
    exact fun hm => Bool.noConfusion ((List.elem_eq_true_of_mem hm).symm.trans hout)

theorem set_attr_udf_witness :
    (strStartsWith "udf:Stewardship" "udf:" = true
      ∧ feature0.udfNames.contains (strDrop "udf:Stewardship" 4) = true)
    ∧ set_attr_on_model feature0 "udf:Stewardship" (Val.str "Good") (Val.str "Good") =
        Except.ok { feature0 with
          udfs := assocSet feature0.udfs (strDrop "udf:Stewardship" 4) (Val.str "Good"),
          fieldsUpdated := true } :=
  ⟨⟨rfl, rfl⟩,
   (set_attr_on_model_udf feature0 "udf:Stewardship" (Val.str "Good")
      rfl rfl rfl).1 rfl⟩

/-- C5 counterexample: with a falsy `request.user` the local `pk` is never
assigned, so `map_feature_hash` raises an unbound-local `NameError` instead
of returning an md5 digest — the claim's "for every request" fails. -/
theorem map_feature_hash_falsy_user_cex :
    map_feature_hash (fun s => s) [feature0] requestNoUser inst0 3 =
      Except.error (Exc.nameError "local variable pk referenced before assignment") := rfl

/-- C5 (amended): for every request whose `request.user` is truthy,
`map_feature_hash` returns the digest of the scoped feature's content hash,
`':'`, and the acting user's primary key (empty string when the user has no
primary key). -/
theorem map_feature_hash_truthy_user (md5hex : String → String)
    (features : List Model) (request : Request) (inst : Instance)
    (feature_id : Nat) (base : Model) (u : User)
    (hlook : scoped_get_or_404 features inst feature_id = Except.ok base)
    (huser : request.user = some u) :
    map_feature_hash md5hex features request inst feature_id =
      Except.ok (md5hex (base.hash ++ ":" ++ pyPkStr u)) := by
  simp [map_feature_hash, hlook, huser, pyPkStr]

theorem map_feature_hash_truthy_user_witness :
    (scoped_get_or_404 [feature0] inst0 3 = Except.ok feature0
      ∧ requestUser5.user = some ⟨some 5⟩)
    ∧ map_feature_hash (fun s => s) [feature0] requestUser5 inst0 3 =
        Except.ok "h0:5" :=
  ⟨⟨rfl, rfl⟩,
   map_feature_hash_truthy_user (fun s => s) [feature0] requestUser5 inst0 3
     feature0 ⟨some 5⟩ rfl rfl⟩

/-- C6: every handler wrapped by `get_photo_context_and_errors` answers with
a context dictionary holding exactly the keys `photos` (the feature's photo
contexts, fetched after the handler ran) and `error` (`None` on success, the
`ValidationError` messages joined with `'; '` otherwise); a `ValidationError`
from the handler never propagates. -/
theorem photo_context_and_errors_shape
    (fn : PhotoState → Except Exc Unit × PhotoState)
    (inst : Instance) (feature_id : Nat) (st st' : PhotoState) (feature : Model)
    (hfeat : get_map_feature_or_404 st'.features feature_id inst = Except.ok feature) :
    (fn st = (Except.ok (), st') →
      get_photo_context_and_errors fn inst feature_id st =
        (Except.ok (Resp.context [
          ("photos", CtxVal.photoCtxs (featurePhotos st' feature)),
          ("error", CtxVal.null)]), st'))
  ∧ (∀ v, fn st = (Except.error (Exc.validationError v), st') →
      get_photo_context_and_errors fn inst feature_id st =
        (Except.ok (Resp.context [
          ("photos", CtxVal.photoCtxs (featurePhotos st' feature)),
          ("error", CtxVal.str (joinWith "; " v.messages))]), st')) := by
  constructor
  · intro h
    simp [get_photo_context_and_errors, h, photoContext, hfeat]
  · intro v h
    simp [get_photo_context_and_errors, h, photoContext, hfeat]

theorem photo_context_and_errors_witness :
    (get_map_feature_or_404 photoSt0.features 3 inst0 = Except.ok feature0
      ∧ fnVE0 photoSt0 =
          (Except.error (Exc.validationError (VErr.fromMessages ["e1", "e2"])), photoSt0))
    ∧ get_photo_context_and_errors fnVE0 inst0 3 photoSt0 =
        (Except.ok (Resp.context [
          ("photos", CtxVal.photoCtxs (featurePhotos photoSt0 feature0)),
          ("error", CtxVal.str "e1; e2")]), photoSt0) :=
  ⟨⟨rfl, rfl⟩,
   (photo_context_and_errors_shape fnVE0 inst0 3 photoSt0 photoSt0 feature0 rfl).2
     (VErr.fromMessages ["e1", "e2"]) rfl⟩

/-- C7: on a successful update `_request_to_update_map_feature` returns the
context with `ok`, the reloaded instance's `geoRevHash`, the saved feature's
id, the tree's id (`None` without a tree), and the `add_plot` flag; a
`ValidationError` from the update instead becomes a bad-request JSON
response built from its message dictionary. -/
theorem request_to_update_contexts (env : Env) (db : DB) (request : Request)
    (inst : Instance) (feature : Model) :
    (∀ f topt db',
      update_map_feature env db request.bodyItems request.user feature =
        (Except.ok (f, topt), db') →
      _request_to_update_map_feature env db request inst feature =
        (Except.ok (Resp.context [
          ("ok", CtxVal.bool true),
          ("geoRevHash", CtxVal.str db'.instanceRow.geoRevHash),
          ("featureId", ctxOfOptPk f.pk),
          ("treeId", match topt with
            | some tree => ctxOfOptPk tree.pk
            | none => CtxVal.null),
          ("enabled", CtxVal.bool (feature_enabled db'.instanceRow "add_plot"))]), db'))
  ∧ (∀ d db',
      update_map_feature env db request.bodyItems request.user feature =
        (Except.error (Exc.validationError (VErr.fromDict d)), db') →
      _request_to_update_map_feature env db request inst feature =
        (Except.ok (Resp.badRequestJson d), db')) := by
  constructor
  · intro f topt db' h
    simp [_request_to_update_map_feature, h]
  · intro d db' h
    simp [_request_to_update_map_feature, h, VErr.message_dict]

theorem request_to_update_contexts_witness :
    (update_map_feature env0 db0 requestNoUser.bodyItems requestNoUser.user feature0 =
      (Except.ok (feature0, none), db0))
    ∧ _request_to_update_map_feature env0 db0 requestNoUser inst0 feature0 =
        (Except.ok (Resp.context [
          ("ok", CtxVal.bool true),
          ("geoRevHash", CtxVal.str "georev1"),
          ("featureId", CtxVal.num 3),
          ("treeId", CtxVal.null),
          ("enabled", CtxVal.bool true)]), db0) :=
  ⟨rfl,
   (request_to_update_contexts env0 db0 requestNoUser inst0 feature0).1
     feature0 none db0 rfl⟩

/-- C8: `map_feature_detail` renders `treemap/plot_detail.html` exactly for
plots and the interpolated `map_features/<feature_type>_detail.html` for
every other feature, building the context with `context_dict_for_plot` for
plots and `context_dict_for_resource` otherwise; without `render` the
context itself is returned. -/
theorem map_feature_detail_template_selection
    (ctxPlot ctxResource : Request → Model → CtxVal) (features : List Model)
    (request : Request) (inst : Instance) (feature_id : Nat) (feature : Model)
    (hfeat : get_map_feature_or_404 features feature_id inst = Except.ok feature) :
    (feature.is_plot = true →
      map_feature_detail ctxPlot ctxResource features request inst feature_id true =
        Except.ok (Resp.render "treemap/plot_detail.html" (ctxPlot request feature)))
  ∧ (feature.is_plot = false →
      map_feature_detail ctxPlot ctxResource features request inst feature_id true =
        Except.ok (Resp.render ("map_features/" ++ feature.featureType ++ "_detail.html")
          (ctxResource request feature)))
  ∧ (map_feature_detail ctxPlot ctxResource features request inst feature_id false =
      Except.ok (Resp.contextVal
        (if feature.is_plot then ctxPlot request feature
         else ctxResource request feature))) := by
  refine ⟨?_, ?_, ?_⟩
  · intro hp
    simp [map_feature_detail, hfeat, hp]
  · intro hp
    simp [map_feature_detail, hfeat, hp]
  · simp [map_feature_detail, hfeat]

theorem map_feature_detail_witness :
    (get_map_feature_or_404 [feature0, resourceFeature0] 4 inst0 =
        Except.ok resourceFeature0
      ∧ resourceFeature0.is_plot = false)
    ∧ map_feature_detail (fun _ _ => CtxVal.str "plotctx") (fun _ _ => CtxVal.str "resctx")
        [feature0, resourceFeature0] requestNoUser inst0 4 true =
        Except.ok (Resp.render "map_features/RainBarrel_detail.html" (CtxVal.str "resctx")) :=
  ⟨⟨rfl, rfl⟩,
   (map_feature_detail_template_selection (fun _ _ => CtxVal.str "plotctx")
      (fun _ _ => CtxVal.str "resctx") [feature0, resourceFeature0]
      requestNoUser inst0 4 resourceFeature0 rfl).2.1 rfl⟩

/-- C9: `render_map_feature_add` raises `Http404` both for feature types the
instance does not support and for the first entry of the instance's
`map_feature_types` list, because membership is tested against the list
sliced from index 1. -/
theorem render_map_feature_add_excludes_head (inst : Instance) (t : String) :
    (inst.mapFeatureTypes.contains t = false →
      render_map_feature_add inst t =
        Except.error (Exc.http404 ("Instance does not support feature type " ++ t)))
  ∧ (∀ rest, inst.mapFeatureTypes = t :: rest → rest.contains t = false →
      render_map_feature_add inst t =
        Except.error (Exc.http404 ("Instance does not support feature type " ++ t))) := by
  constructor
  · intro h
    have hd : (inst.mapFeatureTypes.drop 1).contains t = false := by
      cases hm : inst.mapFeatureTypes with
      | nil => rfl
      | cons a l =>
        rw [hm, List.contains_cons] at h
        exact (Bool.or_eq_false_iff.mp h).2
    unfold render_map_feature_add
    rw [hd]
    rfl
  · intro rest hm hr
    unfold render_map_feature_add
    rw [hm]
    simp only [List.drop_succ_cons, List.drop_zero, hr]
    rfl

theorem render_map_feature_add_witness :
    (inst0.mapFeatureTypes = "Plot" :: [] ∧ List.contains [] "Plot" = false)
    ∧ render_map_feature_add inst0 "Plot" =
        Except.error (Exc.http404 "Instance does not support feature type Plot") :=
  ⟨⟨rfl, rfl⟩,
   (render_map_feature_add_excludes_head inst0 "Plot").2 [] rfl rfl⟩

/-- C10: `rotate_map_feature_photo` raises a `ValidationError` — which the
photo-context wrapper reports in the `error` slot — unless the `degrees`
parameter is one of the six strings 90, 180, 270, -90, -180, -270; with one of
the six (and a saveable photo) it rotates and saves instead. -/
theorem rotate_map_feature_photo_degrees_guard (request : Request)
    (inst : Instance) (feature_id photo_id : Nat) (st : PhotoState)
    (feature : Model)
    (hfeat : get_map_feature_or_404 st.features feature_id inst = Except.ok feature) :
    (∀ d, (request.params.find? (fun p => p.1 == "degrees")).map (fun p => p.2) = some d →
      (["90", "180", "270", "-90", "-180", "-270"].contains d) = false →
      rotate_map_feature_photo request photo_id st =
        (Except.error (Exc.validationError (VErr.fromMessages
          ["\"degrees\" must be a multiple of 90°"])), st)
      ∧ rotate_map_feature_photo_endpoint request inst feature_id photo_id st =
        (Except.ok (Resp.context [
          ("photos", CtxVal.photoCtxs (featurePhotos st feature)),
          ("error", CtxVal.str "\"degrees\" must be a multiple of 90°")]), st))
  ∧ ((request.params.find? (fun p => p.1 == "degrees")).map (fun p => p.2) = none →
      rotate_map_feature_photo request photo_id st =
        (Except.error (Exc.validationError (VErr.fromMessages
          ["\"degrees\" must be a multiple of 90°"])), st))
  ∧ (∀ d photo,
      (request.params.find? (fun p => p.1 == "degrees")).map (fun p => p.2) = some d →
      (["90", "180", "270", "-90", "-180", "-270"].contains d) = true →
      st.photos.find? (fun p => p.pk == photo_id) = some photo →
      photo.saveErrors.isEmpty = true →
      rotate_map_feature_photo request photo_id st =
        (Except.ok (), { st with photos := st.photos.map (fun p =>
          if p.pk == photo_id
          then { photo with rotation := photo.rotation + pyInt d }
          else p) })) := by
  refine ⟨?_, ?_, ?_⟩
  · intro d hd hc
    have hrot : rotate_map_feature_photo request photo_id st =
        (Except.error (Exc.validationError (VErr.fromMessages
          ["\"degrees\" must be a multiple of 90°"])), st) := by
      unfold rotate_map_feature_photo
      rw [hd]
      simp only [hc]
      rfl
    refine ⟨hrot, ?_⟩
    simp [rotate_map_feature_photo_endpoint, get_photo_context_and_errors, hrot,
          photoContext, hfeat, VErr.messages, joinWith]
  · intro hd
    unfold rotate_map_feature_photo
    rw [hd]
    rfl
  · intro d photo hd hc hp hs
    unfold rotate_map_feature_photo
    rw [hd]
    simp only [hc, hp, hs]
    rfl

theorem rotate_map_feature_photo_witness :
    ((["90", "180", "270", "-90", "-180", "-270"].contains "0") = false
      ∧ (requestDeg0.params.find? (fun p => p.1 == "degrees")).map (fun p => p.2) =
          some "0")
    ∧ rotate_map_feature_photo requestDeg0 21 photoSt0 =
        (Except.error (Exc.validationError (VErr.fromMessages
          ["\"degrees\" must be a multiple of 90°"])), photoSt0)
    ∧ rotate_map_feature_photo_endpoint requestDeg0 inst0 3 21 photoSt0 =
        (Except.ok (Resp.context [
          ("photos", CtxVal.photoCtxs (featurePhotos photoSt0 feature0)),
          ("error", CtxVal.str "\"degrees\" must be a multiple of 90°")]), photoSt0) :=
  ⟨⟨rfl, rfl⟩,
   (rotate_map_feature_photo_degrees_guard requestDeg0 inst0 3 21 photoSt0
      feature0 rfl).1 "0" rfl rfl⟩

theorem split_model_or_raise_bad (names : List String) (k : String)
    (h : keyWellFormed names k = false) :
    split_model_or_raise names k =
      Except.error (Exc.genericExc ("Malformed request - invalid field " ++ k)) := by
  unfold split_model_or_raise
  unfold keyWellFormed at h
  cases hp : pySplit1 k with
  | nil => rfl
  | cons a t =>
    cases t with
    | nil => rfl
    | cons b t2 =>
      cases t2 with
      | nil =>
        rw [hp] at h
        simp only at h
        simp only [h]
        rfl
      | cons c t3 => rfl

theorem processEntry_bad (env : Env) (names : List String)
    (st : Model × Option Model) (p : String × Val)
    (h : keyWellFormed names p.1 = false) :
    processEntry env names st p =
      Except.error (Exc.genericExc ("Malformed request - invalid field " ++ p.1)) := by
  unfold processEntry
  rw [split_model_or_raise_bad names p.1 h]

theorem loopPhase_bad_key (env : Env) (names : List String) :
    ∀ (items : List (String × Val)) (st : Model × Option Model),
      items.any (fun p => !keyWellFormed names p.1) = true →
      ∃ e, loopPhase env names items st = Except.error e := by
  intro items
  induction items with
  | nil => intro st h; simp at h
  | cons p rest ih =>
    intro st h
    cases hk : keyWellFormed names p.1 with
    | false =>
      refine ⟨Exc.genericExc ("Malformed request - invalid field " ++ p.1), ?_⟩
      simp only [loopPhase, List.foldlM_cons, processEntry_bad env names st p hk]
      rfl
    | true =>
      have hrest : rest.any (fun p => !keyWellFormed names p.1) = true := by
        rw [List.any_cons, hk] at h
        simpa using h
      cases hpe : processEntry env names st p with
      | error e =>
        exact ⟨e, by simp only [loopPhase, List.foldlM_cons, hpe]; rfl⟩
      | ok st' =>
        obtain ⟨e, he⟩ := ih st' hrest
        refine ⟨e, ?_⟩
        simp only [loopPhase, List.foldlM_cons, hpe]
        exact he

theorem update_map_feature_of_body_error (env : Env) (db : DB)
    (items : List (String × Val)) (user : Option User) (feature : Model)
    (e : Exc) (h : updateMapFeatureBody env db items feature = Except.error e) :
    update_map_feature env db items user feature = (Except.error e, db) := by
  unfold update_map_feature
  rw [h]

/-- C2: every key of the request dictionary must split on the first dot into
a model part and a field part with the model part among the instance's
map-feature object names or `tree`; any key without that shape makes
`update_map_feature` raise, and the database state is handed back untouched
(nothing was saved). -/
theorem update_map_feature_malformed_key (env : Env) (db : DB)
    (items : List (String × Val)) (user : Option User) (feature : Model)
    (h : items.any (fun p =>
        !keyWellFormed (feature.inst.mapFeatureTypes.map to_object_name) p.1) = true) :
    ∃ e, update_map_feature env db items user feature = (Except.error e, db) := by
  obtain ⟨e, he⟩ := loopPhase_bad_key env
      (feature.inst.mapFeatureTypes.map to_object_name) items
      ((if feature.isConvertible then feature.convert_to_display_units else feature), none) h
  refine ⟨e, update_map_feature_of_body_error env db items user feature e ?_⟩
  simp only [updateMapFeatureBody]
  rw [he]

theorem update_map_feature_malformed_key_witness :
    ([(("nodot" : String), Val.null)].any (fun p =>
        !keyWellFormed (feature0.inst.mapFeatureTypes.map to_object_name) p.1) = true)
    ∧ ∃ e, update_map_feature env0 db0 [("nodot", Val.null)] none feature0 =
        (Except.error e, db0) :=
  ⟨rfl, update_map_feature_malformed_key env0 db0 [("nodot", Val.null)] none feature0 rfl⟩

theorem assocSet_ne_nil {α : Type} (l : List (String × α)) (k : String) (v : α) :
    assocSet l k v ≠ [] := by
  cases l with
  | nil => simp [assocSet]
  | cons p rest =>
    cases p with
    | mk k' v' =>
      simp only [assocSet]
      split <;> simp

theorem dictUpdate_ne_nil :
    ∀ (u d : List (String × List String)), d ≠ [] ∨ u ≠ [] →
      dictUpdate d u ≠ [] := by
  intro u
  induction u with
  | nil =>
    intro d h
    rcases h with h | h
    · simpa [dictUpdate] using h
    · exact absurd rfl h
  | cons p rest ih =>
    intro d h
    cases p with
    | mk k v =>
      simp only [dictUpdate]
      exact ih (assocSet d k v) (Or.inl (assocSet_ne_nil d k v))

theorem isEmpty_false_of_ne_nil (l : List (String × List String)) (h : l ≠ []) :
    l.isEmpty = false := by
  cases l with
  | nil => exact absurd rfl h
  | cons a t => rfl

theorem package_ne_nil (n : String) (errs : List (String × List String))
    (h : errs.isEmpty = false) : package_validation_errors n errs ≠ [] := by
  cases errs with
  | nil => simp at h
  | cons a t => simp [package_validation_errors]

/-- C1: `update_map_feature` runs in one transaction; whenever saving the
feature or the tree raises a validation error it raises a `ValidationError`
whose dictionary merges the `package_validation_errors` output of every
model whose save failed, and the transaction rolls back: the caller's
database state comes back unchanged.  The three conjuncts cover a failing
feature save without a tree, failing feature and tree saves, and a
succeeding feature save followed by a failing tree save (whose successful
write is rolled back). -/
theorem update_map_feature_rollback_and_errors (env : Env) (db : DB)
    (items : List (String × Val)) (user : Option User) (feature f' t' : Model) :
    (loopPhase env (feature.inst.mapFeatureTypes.map to_object_name) items
        ((if feature.isConvertible then feature.convert_to_display_units else feature), none) =
        Except.ok (f', none) →
      f'.fieldsUpdated = true → f'.saveErrors.isEmpty = false →
      update_map_feature env db items user feature =
        (Except.error (Exc.validationError (VErr.fromDict
          (dictUpdate [] (package_validation_errors f'.modelName f'.saveErrors)))), db))
  ∧ (loopPhase env (feature.inst.mapFeatureTypes.map to_object_name) items
        ((if feature.isConvertible then feature.convert_to_display_units else feature), none) =
        Except.ok (f', some t') →
      f'.fieldsUpdated = true → t'.fieldsUpdated = true →
      f'.saveErrors.isEmpty = false → t'.saveErrors.isEmpty = false →
      update_map_feature env db items user feature =
        (Except.error (Exc.validationError (VErr.fromDict
          (dictUpdate (dictUpdate [] (package_validation_errors f'.modelName f'.saveErrors))
            (package_validation_errors t'.modelName t'.saveErrors)))), db))
  ∧ (loopPhase env (feature.inst.mapFeatureTypes.map to_object_name) items
        ((if feature.isConvertible then feature.convert_to_display_units else feature), none) =
        Except.ok (f', some t') →
      f'.fieldsUpdated = true → t'.fieldsUpdated = true →
      f'.saveErrors.isEmpty = true → t'.saveErrors.isEmpty = false →
      update_map_feature env db items user feature =
        (Except.error (Exc.validationError (VErr.fromDict
          (dictUpdate [] (package_validation_errors t'.modelName t'.saveErrors)))), db)) := by
  refine ⟨?_, ?_, ?_⟩
  · intro hloop hfu hfe
    apply update_map_feature_of_body_error
    simp only [updateMapFeatureBody]
    rw [hloop]
    have hne : (dictUpdate []
        (package_validation_errors f'.modelName f'.saveErrors)).isEmpty = false :=
      isEmpty_false_of_ne_nil _ (dictUpdate_ne_nil _ _ (Or.inr (package_ne_nil _ _ hfe)))
    cases hcv : f'.isConvertible <;>
      simp [savePhase, save_and_return_errors, save_with_user,
            Model.convert_to_database_units, hfu, hfe, hcv, hne]
  · intro hloop hfu htu hfe hte
    apply update_map_feature_of_body_error
    simp only [updateMapFeatureBody]
    rw [hloop]
    have hne : (dictUpdate
        (dictUpdate [] (package_validation_errors f'.modelName f'.saveErrors))
        (package_validation_errors t'.modelName t'.saveErrors)).isEmpty = false :=
      isEmpty_false_of_ne_nil _ (dictUpdate_ne_nil _ _ (Or.inr (package_ne_nil _ _ hte)))
    cases hcv : f'.isConvertible <;> cases hct : t'.isConvertible <;>
      simp [savePhase, save_and_return_errors, save_with_user,
            Model.convert_to_database_units, hfu, htu, hfe, hte, hcv, hct, hne]
  · intro hloop hfu htu hfe hte
    apply update_map_feature_of_body_error
    simp only [updateMapFeatureBody]
    rw [hloop]
    have hne : (dictUpdate []
        (package_validation_errors t'.modelName t'.saveErrors)).isEmpty = false :=
      isEmpty_false_of_ne_nil _ (dictUpdate_ne_nil _ _ (Or.inr (package_ne_nil _ _ hte)))
    cases hcv : f'.isConvertible <;> cases hct : t'.isConvertible <;>
      cases hpk : f'.pk <;>
      simp [savePhase, save_and_return_errors, save_with_user, dictUpdate,
            Model.convert_to_database_units, hfu, htu, hfe, hte, hcv, hct, hpk, hne]

theorem update_map_feature_rollback_witness :
    (loopPhase env0 (feature0.inst.mapFeatureTypes.map to_object_name) items0
        ((if feature0.isConvertible then feature0.convert_to_display_units else feature0), none) =
      Except.ok (f0Updated, none)
      ∧ f0Updated.fieldsUpdated = true ∧ f0Updated.saveErrors.isEmpty = false)
    ∧ update_map_feature env0 db0 items0 none feature0 =
        (Except.error (Exc.validationError (VErr.fromDict
          (dictUpdate [] (package_validation_errors f0Updated.modelName
            f0Updated.saveErrors)))), db0) :=
  ⟨⟨rfl, rfl, rfl⟩,
   (update_map_feature_rollback_and_errors env0 db0 items0 none feature0
      f0Updated feature0).1 rfl rfl rfl⟩
